import Mathlib

/-!
Shallow embedding of the shot quality validation loop of the
lora-image-generator repository, translated from phase6-validation.js
(the file imported as part_000 of the sources) and from
src/utils/vision-validator.js.

The remote collaborators (the Claude vision judge, the Claude prompt
refiner, the fal.ai image generator together with the image download)
are modelled as oracle inputs: each pass through the validation loop
reads one StepOracle record holding the response each collaborator would
give on that pass.  Floating point scores are modelled as integers
scaled by 100; no score value influences the control flow of the loop,
only the overall_pass boolean does.
-/

namespace Phase6

/-- The payload of a well-formed, successfully parsed judge response,
as requested from the vision model by validateImage. -/
structure JudgeJson where
  overall_pass : Bool
  confidence : Int
  criteria_scores : List (String × Int)
  issues : List String
  suggestions : List String
  deriving Repr, DecidableEq

/-- Outcome of the underlying model call inside validateImage:
the call (or the text extraction) threw, or the returned text failed to
parse as JSON (a SyntaxError in the source), or it parsed to a payload. -/
inductive JudgeResponse where
  | throw (msg : String)
  | malformed (msg : String)
  | parsed (j : JudgeJson)
  deriving Repr, DecidableEq

/-- Result of a remote text or image call: the returned value, or the
message of the error it threw. -/
inductive CallResult where
  | ok (value : String)
  | err (msg : String)
  deriving Repr, DecidableEq

/-- The validation record returned by validateImage to the loop
(vision-validator.js, validateImage). -/
structure ValidationResult where
  success : Bool
  overall_pass : Bool
  confidence : Int
  criteria_scores : List (String × Int)
  issues : List String
  suggestions : List String
  error : Option String
  deriving Repr, DecidableEq

/-- The fallback record built by the SyntaxError branch of the catch in
validateImage (vision-validator.js lines 155-176). -/
def parseFailureResult (msg : String) : ValidationResult :=
  { success := false
    overall_pass := false
    confidence := 0
    criteria_scores :=
      [("character_consistency", 0), ("pose_accuracy", 0),
       ("muscle_highlighting", 0), ("matches_tts_context", 0),
       ("no_hallucinations", 0)]
    issues := ["Failed to parse validation response"]
    suggestions := ["Retry validation"]
    error := some msg }

/-- The judge payload whose control-relevant fields agree with
parseFailureResult: a normal failed validation carrying the parse
failure issue text.  Used to state that a malformed response is handled
exactly like this ordinary failed validation. -/
def parseFailureJudge : JudgeJson :=
  { overall_pass := false
    confidence := 0
    criteria_scores :=
      [("character_consistency", 0), ("pose_accuracy", 0),
       ("muscle_highlighting", 0), ("matches_tts_context", 0),
       ("no_hallucinations", 0)]
    issues := ["Failed to parse validation response"]
    suggestions := ["Retry validation"] }

/-- validateImage (vision-validator.js lines 65-177), as a function of
the underlying model response.  A throwing call (network failure, or the
missing-text-content error) is rethrown to the caller; a JSON parse
failure is converted into the failed-validation fallback record; a
parsed payload is spread into a success record. -/
def validateImage (resp : JudgeResponse) : Except String ValidationResult :=
  match resp with
  | JudgeResponse.throw msg => Except.error msg
  | JudgeResponse.malformed msg => Except.ok (parseFailureResult msg)
  | JudgeResponse.parsed j =>
      Except.ok
        { success := true
          overall_pass := j.overall_pass
          confidence := j.confidence
          criteria_scores := j.criteria_scores
          issues := j.issues
          suggestions := j.suggestions
          error := none }

/-- refinePrompt (vision-validator.js lines 192-243).  The issue and
suggestion lists and the criteria scores only shape the request text
sent upstream; the upstream answer is the call oracle.  The whole call
sits in a try block whose catch returns the original prompt, so a
failed call degrades to the unchanged original prompt. -/
def refinePrompt (originalPrompt : String) (issues : List String)
    (suggestions : List String) (criteriaScores : List (String × Int))
    (call : CallResult) : String :=
  match call with
  | CallResult.ok text => text.trim
  | CallResult.err _ => originalPrompt

/-- The collaborator responses consumed by one pass through the
validation loop: the judge response, the refiner call result, and the
combined generate-and-download result (editImage plus downloadImage,
which sit in the same try block of validateShot). -/
structure StepOracle where
  judge : JudgeResponse
  refine : CallResult
  gen : CallResult
  deriving Repr, DecidableEq

/-- Oracle value used when the response list is exhausted: every
collaborator call fails. -/
def noResponse : StepOracle :=
  { judge := JudgeResponse.throw "no oracle response"
    refine := CallResult.err "no oracle response"
    gen := CallResult.err "no oracle response" }

def getOracle (oracles : List StepOracle) (k : Nat) : StepOracle :=
  oracles.getD k noResponse

/-- One entry of promptData.prompt_history (phase6-validation.js
lines 294-298). -/
structure HistoryEntry where
  iteration : Nat
  prompt : String
  issues : List String
  deriving Repr, DecidableEq

/-- The mutable state of validateShot while the loop runs, plus
instrumentation counters for the number of judge, refiner and generator
calls made so far.  iteration mirrors both the loop variable and the
persisted validation_iteration field (the code keeps them in sync by
writing iteration + 1 to the file just before incrementing). -/
structure LoopState where
  iteration : Nat
  currentPrompt : String
  promptHistory : List HistoryEntry
  judgeCalls : Nat
  refineCalls : Nat
  genCalls : Nat
  deriving Repr, DecidableEq

inductive ShotStatus where
  | approved
  | flagged
  | error
  | no_image
  deriving Repr, DecidableEq

/-- The observable outcome of validateShot for one shot.
iterationRecorded is the iteration field written into the persisted
validation record, when that record is written at all (the judge-throw
and loop-exhaustion error returns carry no validation record). -/
structure ShotResult where
  status : ShotStatus
  iterationRecorded : Option Nat
  promptUsed : Option String
  issuesRecorded : Option (List String)
  message : Option String
  deriving Repr, DecidableEq

/-- Loop configuration (phase6-validation.js CONFIG; the observed value
of maxIterations is 2).  rateLimit is a pure delay and
confidenceThreshold is unused by validateShot, so neither is modelled. -/
structure Config where
  maxIterations : Nat
  deriving Repr, DecidableEq

/-- The while loop of validateShot (phase6-validation.js lines
203-327).  Each pass: call validateImage (a throw ends the shot with an
error outcome); on overall_pass persist approval; otherwise flag when
skipRegen is set or the iteration bound is reached; otherwise refine the
prompt, regenerate the image (getAnchorDataUrl, editImage and
downloadImage share one try block, merged into the gen oracle), and only
after a successful regeneration append the abandoned prompt to the
history, advance the iteration counter and the current prompt, and loop. -/
def loopGo (cfg : Config) (skipRegen : Bool) (oracles : List StepOracle)
    (st : LoopState) : ShotResult × LoopState :=
  if st.iteration ≤ cfg.maxIterations then
    match validateImage (getOracle oracles st.judgeCalls).judge with
    | Except.error msg =>
        ({ status := ShotStatus.error, iterationRecorded := none,
           promptUsed := none, issuesRecorded := none,
           message := some ("Validation failed: " ++ msg) },
         { st with judgeCalls := st.judgeCalls + 1 })
    | Except.ok vr =>
        if vr.overall_pass then
          ({ status := ShotStatus.approved,
             iterationRecorded := some st.iteration,
             promptUsed := some st.currentPrompt,
             issuesRecorded := some vr.issues,
             message := none },
           { st with judgeCalls := st.judgeCalls + 1 })
        else if skipRegen = true ∨ cfg.maxIterations ≤ st.iteration then
          ({ status := ShotStatus.flagged,
             iterationRecorded := some st.iteration,
             promptUsed := some st.currentPrompt,
             issuesRecorded := some vr.issues,
             message := none },
           { st with judgeCalls := st.judgeCalls + 1 })
        else
          match (getOracle oracles st.judgeCalls).gen with
          | CallResult.err msg =>
              ({ status := ShotStatus.error,
                 iterationRecorded := some st.iteration,
                 promptUsed := some st.currentPrompt,
                 issuesRecorded := some vr.issues,
                 message := some msg },
               { st with
                 judgeCalls := st.judgeCalls + 1
                 refineCalls := st.refineCalls + 1
                 genCalls := st.genCalls + 1 })
          | CallResult.ok _ =>
              loopGo cfg skipRegen oracles
                { iteration := st.iteration + 1
                  currentPrompt := refinePrompt st.currentPrompt vr.issues
                    vr.suggestions vr.criteria_scores
                    (getOracle oracles st.judgeCalls).refine
                  promptHistory := st.promptHistory ++
                    [{ iteration := st.iteration,
                       prompt := st.currentPrompt,
                       issues := vr.issues }]
                  judgeCalls := st.judgeCalls + 1
                  refineCalls := st.refineCalls + 1
                  genCalls := st.genCalls + 1 }
  else
    ({ status := ShotStatus.error, iterationRecorded := none,
       promptUsed := none, issuesRecorded := none,
       message := some "Unexpected end of validation loop" }, st)
termination_by cfg.maxIterations + 1 - st.iteration
decreasing_by simp_all; omega

/-- The persisted prompt.json record of a shot, restricted to the fields
validateShot reads.  validation_iteration and prompt_history may be
absent from the file; the code substitutes 0 and the empty list. -/
structure PromptData where
  engineered_prompt : String
  validation_iteration : Option Nat
  prompt_history : Option (List HistoryEntry)
  anchor_image : String
  deriving Repr, DecidableEq

/-- One shot folder as validateShot observes it: whether image.png
exists, whether prompt.json loads (none models a throwing read or
parse), and whether the anchor image referenced by prompt.json exists. -/
structure ShotFolder where
  id : String
  hasImage : Bool
  promptData : Option PromptData
  anchorExists : Bool
  deriving Repr, DecidableEq

/-- The loop state validateShot builds before entering the while loop
(phase6-validation.js lines 199-201). -/
def initialLoopState (pd : PromptData) : LoopState :=
  { iteration := pd.validation_iteration.getD 0
    currentPrompt := pd.engineered_prompt
    promptHistory := pd.prompt_history.getD []
    judgeCalls := 0
    refineCalls := 0
    genCalls := 0 }

/-- State paired with the early returns of validateShot, before any
collaborator call is made: all call counters are zero. -/
def emptyLoopState : LoopState :=
  { iteration := 0, currentPrompt := "", promptHistory := []
    judgeCalls := 0, refineCalls := 0, genCalls := 0 }

/-- validateShot (phase6-validation.js lines 160-334): the early
no-image, prompt-load-failure and missing-anchor returns, then the
validation loop. -/
def validateShot (cfg : Config) (skipRegen : Bool) (shot : ShotFolder)
    (oracles : List StepOracle) : ShotResult × LoopState :=
  if shot.hasImage = false then
    ({ status := ShotStatus.no_image, iterationRecorded := none,
       promptUsed := none, issuesRecorded := none,
       message := some "No image.png found in shot folder" }, emptyLoopState)
  else
    match shot.promptData with
    | none =>
        ({ status := ShotStatus.error, iterationRecorded := none,
           promptUsed := none, issuesRecorded := none,
           message := some "Failed to load prompt.json" }, emptyLoopState)
    | some pd =>
        if shot.anchorExists = false then
          ({ status := ShotStatus.error, iterationRecorded := none,
             promptUsed := none, issuesRecorded := none,
             message := some ("Anchor image not found: " ++ pd.anchor_image) },
           emptyLoopState)
        else
          loopGo cfg skipRegen oracles (initialLoopState pd)

/-- One shot of an exercise run: its folder together with the oracle
responses its loop passes will consume. -/
structure ShotSpec where
  folder : ShotFolder
  oracles : List StepOracle
  deriving Repr, DecidableEq

/-- One entry pushed into a results bucket by validateExercise: the shot
id and the result spread into it. -/
structure BucketItem where
  shot : String
  result : ShotResult
  deriving Repr, DecidableEq

/-- The results accumulator of validateExercise (phase6-validation.js
lines 397-403).  The switch over result.status has a rejected arm, but
validateShot never returns that status, so the rejected bucket can only
stay empty. -/
structure Results where
  approved : List BucketItem
  flagged : List BucketItem
  rejected : List BucketItem
  no_image : List BucketItem
  errors : List BucketItem
  deriving Repr, DecidableEq

def emptyResults : Results :=
  { approved := [], flagged := [], rejected := [], no_image := [], errors := [] }

/-- The switch statement of validateExercise (phase6-validation.js
lines 411-432) pushing one shot result into its bucket. -/
def classifyShot (acc : Results) (item : BucketItem) : Results :=
  match item.result.status with
  | ShotStatus.approved => { acc with approved := acc.approved ++ [item] }
  | ShotStatus.flagged => { acc with flagged := acc.flagged ++ [item] }
  | ShotStatus.no_image => { acc with no_image := acc.no_image ++ [item] }
  | ShotStatus.error => { acc with errors := acc.errors ++ [item] }

/-- The item validateExercise builds for one shot: run validateShot and
pair its result with the shot id. -/
def runShot (cfg : Config) (skipRegen : Bool) (s : ShotSpec) : BucketItem :=
  { shot := s.folder.id
    result := (validateShot cfg skipRegen s.folder s.oracles).1 }

/-- The for loop of validateExercise over the shot folders
(phase6-validation.js lines 405-438), as a fold that classifies each
validateShot result in order. -/
def validateExerciseRun (cfg : Config) (skipRegen : Bool)
    (shots : List ShotSpec) : Results :=
  shots.foldl (fun acc s => classifyShot acc (runShot cfg skipRegen s))
    emptyResults

/-- One shot and the reasons it blocks assembly, as collected into
blocking_issues. -/
structure BlockingIssue where
  shot : String
  issues : List String
  deriving Repr, DecidableEq

/-- The summary record written to validation-summary.json
(phase6-validation.js lines 451-506).  Count fields mirror the counts
object, shot id lists mirror the shots object. -/
structure Summary where
  exercise : String
  total_shots : Nat
  approvedCount : Nat
  flaggedCount : Nat
  rejectedCount : Nat
  noImageCount : Nat
  errorCount : Nat
  ready_for_assembly : Bool
  blocking_issues : List BlockingIssue
  shots_approved : List String
  shots_flagged : List String
  shots_rejected : List String
  shots_no_image : List String
  shots_errors : List String
  deriving Repr, DecidableEq

/-- generateValidationSummary (phase6-validation.js lines 451-506). -/
def generateValidationSummary (exerciseName : String) (results : Results)
    (totalShots : Nat) : Summary :=
  let approved := results.approved.length
  let flagged := results.flagged.length
  let rejected := results.rejected.length
  let noImage := results.no_image.length
  let errors := results.errors.length
  let blockingFromFlagged : List BlockingIssue :=
    results.flagged.filterMap (fun item =>
      match item.result.issuesRecorded with
      | some issues => some { shot := item.shot, issues := issues }
      | none => none)
  let blockingFromErrors : List BlockingIssue :=
    results.errors.map (fun item =>
      { shot := item.shot, issues := [item.result.message.getD ""] })
  { exercise := exerciseName
    total_shots := totalShots
    approvedCount := approved
    flaggedCount := flagged
    rejectedCount := rejected
    noImageCount := noImage
    errorCount := errors
    ready_for_assembly :=
      flagged == 0 && rejected == 0 && errors == 0 && noImage == 0 &&
        approved == totalShots
    blocking_issues := blockingFromFlagged ++ blockingFromErrors
    shots_approved := results.approved.map (fun r => r.shot)
    shots_flagged := results.flagged.map (fun r => r.shot)
    shots_rejected := results.rejected.map (fun r => r.shot)
    shots_no_image := results.no_image.map (fun r => r.shot)
    shots_errors := results.errors.map (fun r => r.shot) }

/-- One exercise as the batch run observes it: its name, whether its
directory exists, and its shot folders with their oracle data. -/
structure ExerciseSpec where
  name : String
  dirExists : Bool
  shots : List ShotSpec
  deriving Repr, DecidableEq

/-- validateExercise (phase6-validation.js lines 357-446): throw when
the exercise directory is missing or no shot folder is found, otherwise
run every shot in order and build the summary. -/
def validateExercise (cfg : Config) (skipRegen : Bool)
    (ex : ExerciseSpec) : Except String (Results × Summary) :=
  if ex.dirExists = false then
    Except.error ("Exercise not found: " ++ ex.name)
  else if ex.shots.isEmpty then
    Except.error ("No shots found in: " ++ ex.name ++ "/shots/")
  else
    let results := validateExerciseRun cfg skipRegen ex.shots
    Except.ok
      (results, generateValidationSummary ex.name results ex.shots.length)

/-- One entry of allResults in main (phase6-validation.js lines
569-579): per exercise, either success with the summary, or the caught
error message. -/
structure ExerciseRunRecord where
  exercise : String
  success : Bool
  summary : Option Summary
  errMsg : Option String
  deriving Repr, DecidableEq

/-- The per-exercise try/catch body of main for one exercise. -/
def runOneExercise (cfg : Config) (skipRegen : Bool)
    (ex : ExerciseSpec) : ExerciseRunRecord :=
  match validateExercise cfg skipRegen ex with
  | Except.ok (_, summary) =>
      { exercise := ex.name, success := true, summary := some summary,
        errMsg := none }
  | Except.error msg =>
      { exercise := ex.name, success := false, summary := none,
        errMsg := some msg }

/-- The batch loop of main (phase6-validation.js lines 569-579): every
exercise is attempted in order and its record appended to allResults,
whatever the earlier outcomes were. -/
def runBatch (cfg : Config) (skipRegen : Bool)
    (exs : List ExerciseSpec) : List ExerciseRunRecord :=
  exs.foldl (fun acc ex => acc ++ [runOneExercise cfg skipRegen ex]) []

/-- The totalFlagged accumulation of main (phase6-validation.js lines
587-600): only successful runs contribute their summary counts. -/
def totalFlagged (runs : List ExerciseRunRecord) : Nat :=
  runs.foldl (fun n r =>
    if r.success then n + ((r.summary.map (fun s => s.flaggedCount)).getD 0)
    else n) 0

/-- The totalErrors accumulation of main. -/
def totalErrors (runs : List ExerciseRunRecord) : Nat :=
  runs.foldl (fun n r =>
    if r.success then n + ((r.summary.map (fun s => s.errorCount)).getD 0)
    else n) 0

/-- The exit decision at the end of main (phase6-validation.js lines
613-616): exit non-zero when any shot flagged, any shot errored, or any
exercise run failed outright. -/
def exitNonZero (runs : List ExerciseRunRecord) : Bool :=
  0 < totalFlagged runs || 0 < totalErrors runs ||
    runs.any (fun r => !r.success)

/-! ## Invariant lemmas about the validation loop -/

theorem loopGo_iteration_mono (cfg : Config) (skipRegen : Bool)
    (oracles : List StepOracle) (st : LoopState) :
    st.iteration ≤ (loopGo cfg skipRegen oracles st).2.iteration := by
  induction st using loopGo.induct cfg skipRegen oracles with
  | case1 x hle msg hv => rw [loopGo]; simp [hle, hv]
  | case2 x hle vr hv hpass => rw [loopGo]; simp [hle, hv, hpass]
  | case3 x hle vr hv hpass hflag => rw [loopGo]; simp [hle, hv, hpass, hflag]
  | case4 x hle vr hv hpass hflag msg hg =>
      rw [loopGo]; simp [hle, hv, hpass, hflag, hg]
  | case5 x hle vr hv hpass hflag value hg ih =>
      rw [loopGo]; simp only [hle, hv, hpass, hflag, hg, if_pos]
      simp at ih ⊢
      omega
  | case6 x hgt => rw [loopGo]; simp [hgt]

theorem loopGo_status_terminal (cfg : Config) (skipRegen : Bool)
    (oracles : List StepOracle) (st : LoopState) :
    (loopGo cfg skipRegen oracles st).1.status = ShotStatus.approved ∨
    (loopGo cfg skipRegen oracles st).1.status = ShotStatus.flagged ∨
    (loopGo cfg skipRegen oracles st).1.status = ShotStatus.error := by
  induction st using loopGo.induct cfg skipRegen oracles with
  | case1 x hle msg hv => rw [loopGo]; simp [hle, hv]
  | case2 x hle vr hv hpass => rw [loopGo]; simp [hle, hv, hpass]
  | case3 x hle vr hv hpass hflag => rw [loopGo]; simp [hle, hv, hpass, hflag]
  | case4 x hle vr hv hpass hflag msg hg =>
      rw [loopGo]; simp [hle, hv, hpass, hflag, hg]
  | case5 x hle vr hv hpass hflag value hg ih =>
      rw [loopGo]; simp only [hle, hv, hpass, hflag, hg, if_pos]
      simpa using ih
  | case6 x hgt => rw [loopGo]; simp [hgt]

theorem loopGo_judgeCalls_le (cfg : Config) (skipRegen : Bool)
    (oracles : List StepOracle) (st : LoopState) :
    (loopGo cfg skipRegen oracles st).2.judgeCalls ≤
      st.judgeCalls + (cfg.maxIterations + 1 - st.iteration) := by
  induction st using loopGo.induct cfg skipRegen oracles with
  | case1 x hle msg hv => rw [loopGo]; simp [hle, hv]; omega
  | case2 x hle vr hv hpass => rw [loopGo]; simp [hle, hv, hpass]; omega
  | case3 x hle vr hv hpass hflag =>
      rw [loopGo]; simp [hle, hv, hpass, hflag]; omega
  | case4 x hle vr hv hpass hflag msg hg =>
      rw [loopGo]; simp [hle, hv, hpass, hflag, hg]; omega
  | case5 x hle vr hv hpass hflag value hg ih =>
      rw [loopGo]; simp only [hle, hv, hpass, hflag, hg, if_pos]
      simp at ih ⊢
      omega
  | case6 x hgt => rw [loopGo]; simp [hgt]

theorem loopGo_recorded_le_max (cfg : Config) (skipRegen : Bool)
    (oracles : List StepOracle) (st : LoopState) (n : Nat)
    (h : (loopGo cfg skipRegen oracles st).1.iterationRecorded = some n) :
    n ≤ cfg.maxIterations := by
  induction st using loopGo.induct cfg skipRegen oracles with
  | case1 x hle msg hv => rw [loopGo] at h; simp [hle, hv] at h
  | case2 x hle vr hv hpass =>
      rw [loopGo] at h; simp [hle, hv, hpass] at h; omega
  | case3 x hle vr hv hpass hflag =>
      rw [loopGo] at h; simp [hle, hv, hpass, hflag] at h; omega
  | case4 x hle vr hv hpass hflag msg hg =>
      rw [loopGo] at h; simp [hle, hv, hpass, hflag, hg] at h; omega
  | case5 x hle vr hv hpass hflag value hg ih =>
      rw [loopGo] at h; simp only [hle, hv, hpass, hflag, hg, if_pos] at h
      exact ih (by simpa using h)
  | case6 x hgt => rw [loopGo] at h; simp [hgt] at h

theorem loopGo_history_balance (cfg : Config) (skipRegen : Bool)
    (oracles : List StepOracle) (st : LoopState) :
    (loopGo cfg skipRegen oracles st).2.promptHistory.length + st.iteration =
      st.promptHistory.length +
        (loopGo cfg skipRegen oracles st).2.iteration := by
  induction st using loopGo.induct cfg skipRegen oracles with
  | case1 x hle msg hv => rw [loopGo]; simp [hle, hv]
  | case2 x hle vr hv hpass => rw [loopGo]; simp [hle, hv, hpass]
  | case3 x hle vr hv hpass hflag => rw [loopGo]; simp [hle, hv, hpass, hflag]
  | case4 x hle vr hv hpass hflag msg hg =>
      rw [loopGo]; simp [hle, hv, hpass, hflag, hg]
  | case5 x hle vr hv hpass hflag value hg ih =>
      rw [loopGo]; simp only [hle, hv, hpass, hflag, hg, if_pos]
      simp at ih ⊢
      omega
  | case6 x hgt => rw [loopGo]; simp [hgt]

theorem loopGo_recorded_of_settled (cfg : Config) (skipRegen : Bool)
    (oracles : List StepOracle) (st : LoopState)
    (h : (loopGo cfg skipRegen oracles st).1.status = ShotStatus.approved ∨
         (loopGo cfg skipRegen oracles st).1.status = ShotStatus.flagged) :
    (loopGo cfg skipRegen oracles st).1.iterationRecorded =
      some (loopGo cfg skipRegen oracles st).2.iteration := by
  induction st using loopGo.induct cfg skipRegen oracles with
  | case1 x hle msg hv => rw [loopGo] at h ⊢; simp [hle, hv] at h
  | case2 x hle vr hv hpass => rw [loopGo]; simp [hle, hv, hpass]
  | case3 x hle vr hv hpass hflag => rw [loopGo]; simp [hle, hv, hpass, hflag]
  | case4 x hle vr hv hpass hflag msg hg =>
      rw [loopGo] at h ⊢; simp [hle, hv, hpass, hflag, hg] at h
  | case5 x hle vr hv hpass hflag value hg ih =>
      rw [loopGo] at h ⊢
      simp only [hle, hv, hpass, hflag, hg, if_pos] at h ⊢
      exact ih (by simpa using h)
  | case6 x hgt => rw [loopGo] at h ⊢; simp [hgt] at h

/-- The loop only reads oracle entries at positions from its current
judge call count onward; responses to judge calls already made are
irrelevant. -/
theorem loopGo_oracle_congr (cfg : Config) (skipRegen : Bool)
    (o1 o2 : List StepOracle) (st : LoopState)
    (h : ∀ k, st.judgeCalls ≤ k → getOracle o1 k = getOracle o2 k) :
    loopGo cfg skipRegen o1 st = loopGo cfg skipRegen o2 st := by
  revert h
  induction st using loopGo.induct cfg skipRegen o1 with
  | case1 x hle msg hv =>
      intro h
      have h0 := h x.judgeCalls le_rfl
      rw [loopGo, loopGo]
      simp [hle, hv, ← h0]
  | case2 x hle vr hv hpass =>
      intro h
      have h0 := h x.judgeCalls le_rfl
      rw [loopGo, loopGo]
      simp [hle, hv, hpass, ← h0]
  | case3 x hle vr hv hpass hflag =>
      intro h
      have h0 := h x.judgeCalls le_rfl
      rw [loopGo, loopGo]
      simp [hle, hv, hpass, hflag, ← h0]
  | case4 x hle vr hv hpass hflag msg hg =>
      intro h
      have h0 := h x.judgeCalls le_rfl
      rw [loopGo, loopGo]
      simp [hle, hv, hpass, hflag, hg, ← h0]
  | case5 x hle vr hv hpass hflag value hg ih =>
      intro h
      have h0 := h x.judgeCalls le_rfl
      rw [loopGo, loopGo]
      simp only [hle, hv, hpass, hflag, hg, if_pos, ← h0]
      exact ih (fun k hk => h k (by simp at hk; omega))
  | case6 x hgt =>
      intro _
      rw [loopGo, loopGo]
      simp [hgt]

/-- A malformed judge response on the first judge call leads to exactly
the run that a normal failed validation with the fallback issue list
would produce. -/
theorem loopGo_malformed_eq_failure (cfg : Config) (skipRegen : Bool)
    (m : String) (rc gc : CallResult) (rest : List StepOracle)
    (st : LoopState) (h0 : st.judgeCalls = 0) :
    loopGo cfg skipRegen
        ({ judge := JudgeResponse.malformed m, refine := rc, gen := gc } ::
          rest) st =
      loopGo cfg skipRegen
        ({ judge := JudgeResponse.parsed parseFailureJudge, refine := rc,
           gen := gc } :: rest) st := by
  rw [loopGo, loopGo]
  by_cases hle : st.iteration ≤ cfg.maxIterations
  · simp only [hle, if_pos, h0, getOracle, List.getD_cons_zero,
      validateImage, parseFailureResult, parseFailureJudge]
    by_cases hflag : skipRegen = true ∨ cfg.maxIterations ≤ st.iteration
    · simp [hflag]
    · simp only [hflag, if_neg, if_false]
      cases gc with
      | err msg => simp
      | ok v =>
          simp only []
          apply loopGo_oracle_congr
          intro k hk
          simp at hk
          cases k with
          | zero => omega
          | succ k2 => simp [getOracle]
  · simp [hle]

/-! ## Lemmas about the exercise orchestrator and the batch loop -/

theorem classify_foldl (cfg : Config) (skipRegen : Bool)
    (l : List ShotSpec) (acc : Results) :
    l.foldl (fun a s => classifyShot a (runShot cfg skipRegen s)) acc =
      { approved := acc.approved ++ (l.map (runShot cfg skipRegen)).filter
          (fun it => it.result.status == ShotStatus.approved)
        flagged := acc.flagged ++ (l.map (runShot cfg skipRegen)).filter
          (fun it => it.result.status == ShotStatus.flagged)
        rejected := acc.rejected
        no_image := acc.no_image ++ (l.map (runShot cfg skipRegen)).filter
          (fun it => it.result.status == ShotStatus.no_image)
        errors := acc.errors ++ (l.map (runShot cfg skipRegen)).filter
          (fun it => it.result.status == ShotStatus.error) } := by
  induction l generalizing acc with
  | nil => simp
  | cons s rest ih =>
      simp only [List.foldl_cons, List.map_cons, List.filter_cons]
      rw [ih]
      rcases hs : (runShot cfg skipRegen s).result.status
      all_goals simp [classifyShot, hs]

/-- Each bucket of the exercise results is the filter of the
independently computed per-shot outcomes with the matching status; the
rejected bucket is empty because validateShot never returns that
status. -/
theorem validateExerciseRun_buckets (cfg : Config) (skipRegen : Bool)
    (shots : List ShotSpec) :
    validateExerciseRun cfg skipRegen shots =
      { approved := (shots.map (runShot cfg skipRegen)).filter
          (fun it => it.result.status == ShotStatus.approved)
        flagged := (shots.map (runShot cfg skipRegen)).filter
          (fun it => it.result.status == ShotStatus.flagged)
        rejected := []
        no_image := (shots.map (runShot cfg skipRegen)).filter
          (fun it => it.result.status == ShotStatus.no_image)
        errors := (shots.map (runShot cfg skipRegen)).filter
          (fun it => it.result.status == ShotStatus.error) } := by
  have h := classify_foldl cfg skipRegen shots emptyResults
  simpa [validateExerciseRun, emptyResults] using h

/-- The four reachable statuses partition any list of bucket items. -/
theorem filter_status_partition (l : List BucketItem) :
    (l.filter (fun it => it.result.status == ShotStatus.approved)).length +
    (l.filter (fun it => it.result.status == ShotStatus.flagged)).length +
    (l.filter (fun it => it.result.status == ShotStatus.no_image)).length +
    (l.filter (fun it => it.result.status == ShotStatus.error)).length =
      l.length := by
  induction l with
  | nil => simp
  | cons x rest ih =>
      rcases hs : x.result.status
      all_goals simp [List.filter_cons, hs]; omega

/-- The batch loop of main is a map: every exercise is attempted, and
each record is exactly the one its own run produces. -/
theorem runBatch_eq_map (cfg : Config) (skipRegen : Bool)
    (exs : List ExerciseSpec) :
    runBatch cfg skipRegen exs = exs.map (runOneExercise cfg skipRegen) := by
  have h : ∀ acc, exs.foldl
      (fun a ex => a ++ [runOneExercise cfg skipRegen ex]) acc =
      acc ++ exs.map (runOneExercise cfg skipRegen) := by
    induction exs with
    | nil => simp
    | cons e rest ih => intro acc; simp [List.foldl_cons, ih]
  simpa [runBatch] using h []

/-! ## Claim theorems -/

/-- C1 counterexample: a malformed judge response with retries remaining
does trigger the refine and regenerate path and does consume an
iteration, contrary to the claim that it does not.  With a malformed
first response and a passing second response, the run makes one refiner
call and one generator call, increments the iteration, and records
iterationsUsed 1 in the approved outcome. -/
theorem malformed_judge_response_consumes_iteration_cex :
    (loopGo ⟨2⟩ false
        [⟨JudgeResponse.malformed "Unexpected token", CallResult.ok "prompt two",
          CallResult.ok "url"⟩,
         ⟨JudgeResponse.parsed ⟨true, 90, [], [], []⟩, CallResult.err "unused",
          CallResult.err "unused"⟩]
        ⟨0, "orig", [], 0, 0, 0⟩).2.refineCalls = 1 ∧
    (loopGo ⟨2⟩ false
        [⟨JudgeResponse.malformed "Unexpected token", CallResult.ok "prompt two",
          CallResult.ok "url"⟩,
         ⟨JudgeResponse.parsed ⟨true, 90, [], [], []⟩, CallResult.err "unused",
          CallResult.err "unused"⟩]
        ⟨0, "orig", [], 0, 0, 0⟩).2.genCalls = 1 ∧
    (loopGo ⟨2⟩ false
        [⟨JudgeResponse.malformed "Unexpected token", CallResult.ok "prompt two",
          CallResult.ok "url"⟩,
         ⟨JudgeResponse.parsed ⟨true, 90, [], [], []⟩, CallResult.err "unused",
          CallResult.err "unused"⟩]
        ⟨0, "orig", [], 0, 0, 0⟩).1.status = ShotStatus.approved ∧
    (loopGo ⟨2⟩ false
        [⟨JudgeResponse.malformed "Unexpected token", CallResult.ok "prompt two",
          CallResult.ok "url"⟩,
         ⟨JudgeResponse.parsed ⟨true, 90, [], [], []⟩, CallResult.err "unused",
          CallResult.err "unused"⟩]
        ⟨0, "orig", [], 0, 0, 0⟩).1.iterationRecorded = some 1 := by
  simp [loopGo, getOracle, validateImage, parseFailureResult, refinePrompt]

/-- C1 (amended): a malformed response from the underlying model is
converted by validateImage into an ordinary failed validation result
(overall_pass false) instead of an error, so it does not crash the
pipeline and does not by itself produce an Error outcome; the Loop then
handles it exactly as a normal overall_pass false validation failure
with the fallback issue list, so with retries remaining it does trigger
the refine and regenerate path and does consume an iteration. -/
theorem malformed_judge_response_handled_as_normal_failure (cfg : Config)
    (skipRegen : Bool) (m : String) (rc gc : CallResult)
    (rest : List StepOracle) (st : LoopState) (h0 : st.judgeCalls = 0) :
    validateImage (JudgeResponse.malformed m) =
        Except.ok (parseFailureResult m) ∧
    loopGo cfg skipRegen
        ({ judge := JudgeResponse.malformed m, refine := rc, gen := gc } ::
          rest) st =
      loopGo cfg skipRegen
        ({ judge := JudgeResponse.parsed parseFailureJudge, refine := rc,
           gen := gc } :: rest) st :=
  ⟨rfl, loopGo_malformed_eq_failure cfg skipRegen m rc gc rest st h0⟩

/-- C1 witness: the amended statement at a concrete malformed response. -/
theorem malformed_judge_response_handled_as_normal_failure_witness :
    validateImage (JudgeResponse.malformed "bad json") =
        Except.ok (parseFailureResult "bad json") ∧
    loopGo ⟨2⟩ false
        [⟨JudgeResponse.malformed "bad json", CallResult.ok "p2",
          CallResult.ok "u"⟩] ⟨0, "orig", [], 0, 0, 0⟩ =
      loopGo ⟨2⟩ false
        [⟨JudgeResponse.parsed parseFailureJudge, CallResult.ok "p2",
          CallResult.ok "u"⟩] ⟨0, "orig", [], 0, 0, 0⟩ :=
  malformed_judge_response_handled_as_normal_failure ⟨2⟩ false "bad json"
    (CallResult.ok "p2") (CallResult.ok "u") [] ⟨0, "orig", [], 0, 0, 0⟩ rfl

/-- C2 counterexample: when the generation call of a refinement cycle
fails, the persisted prompt record has NOT been updated: promptHistory
is still empty and the iteration count is still 0, and the Error outcome
records the pre-increment iteration 0 — contrary to the claim that the
history entry is appended and the count incremented before the
generator is invoked. -/
theorem history_appended_before_generation_cex :
    (loopGo ⟨2⟩ false
        [⟨JudgeResponse.parsed ⟨false, 30, [("pose_accuracy", 20)],
            ["pose wrong"], ["fix pose"]⟩,
          CallResult.ok "better prompt",
          CallResult.err "No image returned from nano-banana"⟩]
        ⟨0, "orig", [], 0, 0, 0⟩).1.status = ShotStatus.error ∧
    (loopGo ⟨2⟩ false
        [⟨JudgeResponse.parsed ⟨false, 30, [("pose_accuracy", 20)],
            ["pose wrong"], ["fix pose"]⟩,
          CallResult.ok "better prompt",
          CallResult.err "No image returned from nano-banana"⟩]
        ⟨0, "orig", [], 0, 0, 0⟩).2.promptHistory = [] ∧
    (loopGo ⟨2⟩ false
        [⟨JudgeResponse.parsed ⟨false, 30, [("pose_accuracy", 20)],
            ["pose wrong"], ["fix pose"]⟩,
          CallResult.ok "better prompt",
          CallResult.err "No image returned from nano-banana"⟩]
        ⟨0, "orig", [], 0, 0, 0⟩).2.iteration = 0 ∧
    (loopGo ⟨2⟩ false
        [⟨JudgeResponse.parsed ⟨false, 30, [("pose_accuracy", 20)],
            ["pose wrong"], ["fix pose"]⟩,
          CallResult.ok "better prompt",
          CallResult.err "No image returned from nano-banana"⟩]
        ⟨0, "orig", [], 0, 0, 0⟩).1.iterationRecorded = some 0 := by
  simp [loopGo, getOracle, validateImage]

/-- C2 (amended): in a refinement cycle the Loop first calls the
refiner, then the generator; only after a successful generation and
download does it append the iteration, prompt and issues entry to
promptHistory, advance currentPrompt to the refiner output and increment
iterationCount.  When the generation call fails, the prompt record is
unchanged — no history entry is appended, the iteration count is not
incremented — and the Error outcome records the pre-increment
iteration. -/
theorem history_appended_only_after_generation (cfg : Config)
    (skipRegen : Bool) (oracles : List StepOracle) (st : LoopState)
    (j : JudgeJson) (hle : st.iteration ≤ cfg.maxIterations)
    (hj : (getOracle oracles st.judgeCalls).judge = JudgeResponse.parsed j)
    (hfail : j.overall_pass = false)
    (hflag : ¬(skipRegen = true ∨ cfg.maxIterations ≤ st.iteration)) :
    (∀ msg, (getOracle oracles st.judgeCalls).gen = CallResult.err msg →
      loopGo cfg skipRegen oracles st =
        ({ status := ShotStatus.error, iterationRecorded := some st.iteration,
           promptUsed := some st.currentPrompt,
           issuesRecorded := some j.issues, message := some msg },
         { st with
           judgeCalls := st.judgeCalls + 1
           refineCalls := st.refineCalls + 1
           genCalls := st.genCalls + 1 })) ∧
    (∀ u, (getOracle oracles st.judgeCalls).gen = CallResult.ok u →
      loopGo cfg skipRegen oracles st =
        loopGo cfg skipRegen oracles
          { iteration := st.iteration + 1
            currentPrompt := refinePrompt st.currentPrompt j.issues
              j.suggestions j.criteria_scores
              (getOracle oracles st.judgeCalls).refine
            promptHistory := st.promptHistory ++
              [{ iteration := st.iteration, prompt := st.currentPrompt,
                 issues := j.issues }]
            judgeCalls := st.judgeCalls + 1
            refineCalls := st.refineCalls + 1
            genCalls := st.genCalls + 1 }) := by
  constructor
  · intro msg hg
    conv_lhs => rw [loopGo]
    simp [hle, hj, validateImage, hfail, hflag, hg]
  · intro u hg
    conv_lhs => rw [loopGo]
    simp [hle, hj, validateImage, hfail, hflag, hg]

/-- C2 witness: the amended statement at a concrete failed generation
call; the final state keeps the empty history and iteration 0. -/
theorem history_appended_only_after_generation_witness :
    loopGo ⟨2⟩ false
        [⟨JudgeResponse.parsed ⟨false, 30, [], ["pose wrong"], []⟩,
          CallResult.ok "better prompt", CallResult.err "gen down"⟩]
        ⟨0, "orig", [], 0, 0, 0⟩ =
      ({ status := ShotStatus.error, iterationRecorded := some 0,
         promptUsed := some "orig", issuesRecorded := some ["pose wrong"],
         message := some "gen down" },
       ⟨0, "orig", [], 1, 1, 1⟩) :=
  (history_appended_only_after_generation ⟨2⟩ false
    [⟨JudgeResponse.parsed ⟨false, 30, [], ["pose wrong"], []⟩,
      CallResult.ok "better prompt", CallResult.err "gen down"⟩]
    ⟨0, "orig", [], 0, 0, 0⟩ ⟨false, 30, [], ["pose wrong"], []⟩
    (by decide) rfl rfl (by decide)).1 "gen down" rfl

/-- C3: for every shot entering the Loop and every sequence of judge,
refiner and generator responses, the Loop reaches exactly one of the
terminal outcomes approved, flagged or error (the three constructor
equalities are mutually exclusive), and it makes at most
maxIterations + 1 judge calls per run. -/
theorem loop_terminates_with_bounded_judge_calls (cfg : Config)
    (skipRegen : Bool) (oracles : List StepOracle) (pd : PromptData) :
    ((loopGo cfg skipRegen oracles (initialLoopState pd)).1.status =
        ShotStatus.approved ∨
      (loopGo cfg skipRegen oracles (initialLoopState pd)).1.status =
        ShotStatus.flagged ∨
      (loopGo cfg skipRegen oracles (initialLoopState pd)).1.status =
        ShotStatus.error) ∧
    (loopGo cfg skipRegen oracles (initialLoopState pd)).2.judgeCalls ≤
      cfg.maxIterations + 1 := by
  refine ⟨loopGo_status_terminal cfg skipRegen oracles (initialLoopState pd),
    ?_⟩
  have h := loopGo_judgeCalls_le cfg skipRegen oracles (initialLoopState pd)
  have h2 : (initialLoopState pd).judgeCalls = 0 := rfl
  rw [h2] at h
  omega

/-- C4: starting from iteration count 0, the iteration count never
decreases across the Loop, and whenever the final outcome records an
iterationsUsed value it is at most maxIterations (and, being a natural
number, at least 0), even when every validation attempt fails. -/
theorem iteration_monotone_and_recorded_bounded (cfg : Config)
    (skipRegen : Bool) (oracles : List StepOracle) (st : LoopState)
    (h0 : st.iteration = 0) :
    st.iteration ≤ (loopGo cfg skipRegen oracles st).2.iteration ∧
    ∀ n, (loopGo cfg skipRegen oracles st).1.iterationRecorded = some n →
      n ≤ cfg.maxIterations :=
  ⟨loopGo_iteration_mono cfg skipRegen oracles st,
   fun n h => loopGo_recorded_le_max cfg skipRegen oracles st n h⟩

/-- C4 witness: the monotonicity conclusion at a concrete run that
starts at iteration 0 and flags on the only judge call. -/
theorem iteration_monotone_and_recorded_bounded_witness :
    (⟨0, "p", [], 0, 0, 0⟩ : LoopState).iteration ≤
      (loopGo ⟨2⟩ true
        [⟨JudgeResponse.parsed ⟨false, 0, [], [], []⟩, CallResult.err "e",
          CallResult.err "e"⟩] ⟨0, "p", [], 0, 0, 0⟩).2.iteration :=
  (iteration_monotone_and_recorded_bounded ⟨2⟩ true
    [⟨JudgeResponse.parsed ⟨false, 0, [], [], []⟩, CallResult.err "e",
      CallResult.err "e"⟩] ⟨0, "p", [], 0, 0, 0⟩ rfl).1

/-- C5: the batch loop of main is a map over the exercises, so the
record of each exercise is exactly what its own run produces regardless
of the other exercises; within one exercise the results buckets are
filters of the independently computed per-shot outcomes, so a flagged or
errored shot never prevents another shot from being processed and
landing in the approved bucket; and the non-zero exit decision is a
function of the complete list of per-exercise records, taken after all
of them have been attempted. -/
theorem batch_and_shot_isolation (cfg : Config) (skipRegen : Bool)
    (exs : List ExerciseSpec) (shots : List ShotSpec) :
    runBatch cfg skipRegen exs = exs.map (runOneExercise cfg skipRegen) ∧
    validateExerciseRun cfg skipRegen shots =
      { approved := (shots.map (runShot cfg skipRegen)).filter
          (fun it => it.result.status == ShotStatus.approved)
        flagged := (shots.map (runShot cfg skipRegen)).filter
          (fun it => it.result.status == ShotStatus.flagged)
        rejected := []
        no_image := (shots.map (runShot cfg skipRegen)).filter
          (fun it => it.result.status == ShotStatus.no_image)
        errors := (shots.map (runShot cfg skipRegen)).filter
          (fun it => it.result.status == ShotStatus.error) } ∧
    exitNonZero (runBatch cfg skipRegen exs) =
      (0 < totalFlagged (exs.map (runOneExercise cfg skipRegen)) ||
       0 < totalErrors (exs.map (runOneExercise cfg skipRegen)) ||
       (exs.map (runOneExercise cfg skipRegen)).any (fun r => !r.success)) := by
  refine ⟨runBatch_eq_map cfg skipRegen exs,
    validateExerciseRun_buckets cfg skipRegen shots, ?_⟩
  rw [exitNonZero, runBatch_eq_map]

/-- C6: for every exercise run that validateExercise completes, the
summary flag satisfies ready_for_assembly = true exactly when the
approved count equals the total number of shots and the flagged and
error counts are zero.  The extra conjuncts the code checks (rejected
count zero, no_image count zero) follow from the partition of the shots
among the buckets. -/
theorem ready_for_assembly_characterization (cfg : Config) (skipRegen : Bool)
    (ex : ExerciseSpec) (results : Results) (summary : Summary)
    (h : validateExercise cfg skipRegen ex = Except.ok (results, summary)) :
    summary.ready_for_assembly = true ↔
      (results.approved.length = ex.shots.length ∧
       results.flagged.length = 0 ∧ results.errors.length = 0) := by
  unfold validateExercise at h
  split at h
  · simp at h
  · split at h
    · simp at h
    · simp only [Except.ok.injEq, Prod.mk.injEq] at h
      obtain ⟨hres, hsum⟩ := h
      subst hres
      subst hsum
      have hp := filter_status_partition (ex.shots.map (runShot cfg skipRegen))
      rw [List.length_map] at hp
      rw [validateExerciseRun_buckets]
      simp only [generateValidationSummary, Bool.and_eq_true, beq_iff_eq,
        List.length_nil, and_true]
      omega

/-- C6 witness: the characterization at a one-shot exercise whose only
shot passes on the first judge call. -/
theorem ready_for_assembly_characterization_witness :
    (generateValidationSummary "demo"
        (validateExerciseRun ⟨2⟩ false
          [⟨⟨"01-intro", true, some ⟨"a pose", none, none, "a.png"⟩, true⟩,
            [⟨JudgeResponse.parsed ⟨true, 90, [], [], []⟩, CallResult.err "x",
              CallResult.err "x"⟩]⟩])
        1).ready_for_assembly = true ↔
      ((validateExerciseRun ⟨2⟩ false
          [⟨⟨"01-intro", true, some ⟨"a pose", none, none, "a.png"⟩, true⟩,
            [⟨JudgeResponse.parsed ⟨true, 90, [], [], []⟩, CallResult.err "x",
              CallResult.err "x"⟩]⟩]).approved.length = 1 ∧
       (validateExerciseRun ⟨2⟩ false
          [⟨⟨"01-intro", true, some ⟨"a pose", none, none, "a.png"⟩, true⟩,
            [⟨JudgeResponse.parsed ⟨true, 90, [], [], []⟩, CallResult.err "x",
              CallResult.err "x"⟩]⟩]).flagged.length = 0 ∧
       (validateExerciseRun ⟨2⟩ false
          [⟨⟨"01-intro", true, some ⟨"a pose", none, none, "a.png"⟩, true⟩,
            [⟨JudgeResponse.parsed ⟨true, 90, [], [], []⟩, CallResult.err "x",
              CallResult.err "x"⟩]⟩]).errors.length = 0) :=
  ready_for_assembly_characterization ⟨2⟩ false
    ⟨"demo", true,
      [⟨⟨"01-intro", true, some ⟨"a pose", none, none, "a.png"⟩, true⟩,
        [⟨JudgeResponse.parsed ⟨true, 90, [], [], []⟩, CallResult.err "x",
          CallResult.err "x"⟩]⟩]⟩ _ _ rfl

/-- C7: if the underlying refinement call fails, refinePrompt returns
the original prompt unchanged rather than raising, and the Loop proceeds
to regenerate with the unchanged prompt — the refiner failure never
surfaces as a distinct error outcome. -/
theorem refiner_failure_falls_back_to_original_prompt (cfg : Config)
    (skipRegen : Bool) (oracles : List StepOracle) (st : LoopState)
    (orig : String) (issues suggestions : List String)
    (scores : List (String × Int)) (m u : String) (j : JudgeJson)
    (hle : st.iteration ≤ cfg.maxIterations)
    (hj : (getOracle oracles st.judgeCalls).judge = JudgeResponse.parsed j)
    (hfail : j.overall_pass = false)
    (hflag : ¬(skipRegen = true ∨ cfg.maxIterations ≤ st.iteration))
    (hr : (getOracle oracles st.judgeCalls).refine = CallResult.err m)
    (hg : (getOracle oracles st.judgeCalls).gen = CallResult.ok u) :
    refinePrompt orig issues suggestions scores (CallResult.err m) = orig ∧
    loopGo cfg skipRegen oracles st =
      loopGo cfg skipRegen oracles
        { iteration := st.iteration + 1
          currentPrompt := st.currentPrompt
          promptHistory := st.promptHistory ++
            [{ iteration := st.iteration, prompt := st.currentPrompt,
               issues := j.issues }]
          judgeCalls := st.judgeCalls + 1
          refineCalls := st.refineCalls + 1
          genCalls := st.genCalls + 1 } := by
  constructor
  · rfl
  · conv_lhs => rw [loopGo]
    simp [hle, hj, validateImage, hfail, hflag, hg, hr, refinePrompt]

/-- C7 witness: the fallback at a concrete failed refinement call; the
continuation state keeps the unchanged prompt. -/
theorem refiner_failure_falls_back_to_original_prompt_witness :
    refinePrompt "orig" ["issue one"] [] [] (CallResult.err "rate limited") =
        "orig" ∧
    loopGo ⟨2⟩ false
        [⟨JudgeResponse.parsed ⟨false, 10, [], ["issue one"], []⟩,
          CallResult.err "rate limited", CallResult.ok "url"⟩]
        ⟨0, "orig", [], 0, 0, 0⟩ =
      loopGo ⟨2⟩ false
        [⟨JudgeResponse.parsed ⟨false, 10, [], ["issue one"], []⟩,
          CallResult.err "rate limited", CallResult.ok "url"⟩]
        ⟨1, "orig", [⟨0, "orig", ["issue one"]⟩], 1, 1, 1⟩ :=
  refiner_failure_falls_back_to_original_prompt ⟨2⟩ false
    [⟨JudgeResponse.parsed ⟨false, 10, [], ["issue one"], []⟩,
      CallResult.err "rate limited", CallResult.ok "url"⟩]
    ⟨0, "orig", [], 0, 0, 0⟩ "orig" ["issue one"] [] [] "rate limited" "url"
    ⟨false, 10, [], ["issue one"], []⟩ (by decide) rfl rfl (by decide) rfl rfl

/-- C8: when the Loop starts with a history whose length equals the
iteration count (0 and the empty list for a fresh shot), the equality
holds again when the Loop stops, and every approved or flagged outcome
records an iterationsUsed equal to the final history length. -/
theorem prompt_history_length_matches_iterations (cfg : Config)
    (skipRegen : Bool) (oracles : List StepOracle) (st : LoopState)
    (hlen : st.promptHistory.length = st.iteration) :
    (loopGo cfg skipRegen oracles st).2.promptHistory.length =
      (loopGo cfg skipRegen oracles st).2.iteration ∧
    ∀ n, ((loopGo cfg skipRegen oracles st).1.status = ShotStatus.approved ∨
        (loopGo cfg skipRegen oracles st).1.status = ShotStatus.flagged) →
      (loopGo cfg skipRegen oracles st).1.iterationRecorded = some n →
      (loopGo cfg skipRegen oracles st).2.promptHistory.length = n := by
  have hb := loopGo_history_balance cfg skipRegen oracles st
  constructor
  · omega
  · intro n hs hr
    have h2 := loopGo_recorded_of_settled cfg skipRegen oracles st hs
    rw [hr] at h2
    have h3 := Option.some.inj h2
    omega

/-- C8 witness: the history and iteration equality at a concrete run
that starts fresh and flags on the only judge call. -/
theorem prompt_history_length_matches_iterations_witness :
    (loopGo ⟨2⟩ true
      [⟨JudgeResponse.parsed ⟨false, 0, [], [], []⟩, CallResult.err "e",
        CallResult.err "e"⟩] ⟨0, "p", [], 0, 0, 0⟩).2.promptHistory.length =
      (loopGo ⟨2⟩ true
        [⟨JudgeResponse.parsed ⟨false, 0, [], [], []⟩, CallResult.err "e",
          CallResult.err "e"⟩] ⟨0, "p", [], 0, 0, 0⟩).2.iteration :=
  (prompt_history_length_matches_iterations ⟨2⟩ true
    [⟨JudgeResponse.parsed ⟨false, 0, [], [], []⟩, CallResult.err "e",
      CallResult.err "e"⟩] ⟨0, "p", [], 0, 0, 0⟩ rfl).1

/-- C9: for a shot entering the Loop with iteration count 0, if the
judge reports overall_pass true on the first call, the run terminates
immediately with the approved outcome recording iterationsUsed 0, the
prompt unchanged, and a final state showing one judge call and zero
refiner and generator calls. -/
theorem first_pass_approval_uses_zero_iterations (cfg : Config)
    (skipRegen : Bool) (oracles : List StepOracle) (pd : PromptData)
    (j : JudgeJson) (h0 : pd.validation_iteration.getD 0 = 0)
    (hj : (getOracle oracles 0).judge = JudgeResponse.parsed j)
    (hpass : j.overall_pass = true) :
    loopGo cfg skipRegen oracles (initialLoopState pd) =
      ({ status := ShotStatus.approved, iterationRecorded := some 0,
         promptUsed := some pd.engineered_prompt,
         issuesRecorded := some j.issues, message := none },
       { initialLoopState pd with judgeCalls := 1 }) := by
  rw [loopGo]
  simp [initialLoopState, h0, hj, validateImage, hpass]

/-- C9 witness: the first-pass approval at a concrete passing judge
response. -/
theorem first_pass_approval_uses_zero_iterations_witness :
    loopGo ⟨2⟩ false
        [⟨JudgeResponse.parsed ⟨true, 90, [], [], []⟩, CallResult.err "x",
          CallResult.err "x"⟩]
        (initialLoopState ⟨"a pose", none, none, "anchor.png"⟩) =
      ({ status := ShotStatus.approved, iterationRecorded := some 0,
         promptUsed := some "a pose", issuesRecorded := some [],
         message := none },
       ⟨0, "a pose", [], 1, 0, 0⟩) :=
  first_pass_approval_uses_zero_iterations ⟨2⟩ false
    [⟨JudgeResponse.parsed ⟨true, 90, [], [], []⟩, CallResult.err "x",
      CallResult.err "x"⟩]
    ⟨"a pose", none, none, "anchor.png"⟩ ⟨true, 90, [], [], []⟩ rfl rfl rfl

/-- C10: a shot folder with a prompt record but no image file makes
validateShot return the fourth status no_image before any judge, refiner
or generator call (all counters zero); no_image is distinct from the
approved, flagged and error statuses; any exercise whose results contain
a no_image entry has ready_for_assembly false; and a batch with no
flagged shots, no errored shots and only successful exercise runs exits
zero regardless of no_image outcomes. -/
theorem missing_image_shot_short_circuits (cfg : Config) (skipRegen : Bool)
    (oracles : List StepOracle) (sid : String) (pd : PromptData)
    (anchor : Bool) :
    (validateShot cfg skipRegen ⟨sid, false, some pd, anchor⟩ oracles).1 =
      { status := ShotStatus.no_image, iterationRecorded := none,
        promptUsed := none, issuesRecorded := none,
        message := some "No image.png found in shot folder" } ∧
    (validateShot cfg skipRegen ⟨sid, false, some pd, anchor⟩
        oracles).2.judgeCalls = 0 ∧
    (validateShot cfg skipRegen ⟨sid, false, some pd, anchor⟩
        oracles).2.refineCalls = 0 ∧
    (validateShot cfg skipRegen ⟨sid, false, some pd, anchor⟩
        oracles).2.genCalls = 0 ∧
    (ShotStatus.no_image ≠ ShotStatus.approved ∧
     ShotStatus.no_image ≠ ShotStatus.flagged ∧
     ShotStatus.no_image ≠ ShotStatus.error) ∧
    (∀ name results total, results.no_image ≠ [] →
      (generateValidationSummary name results total).ready_for_assembly =
        false) ∧
    (∀ runs : List ExerciseRunRecord, totalFlagged runs = 0 →
      totalErrors runs = 0 → runs.all (fun r => r.success) = true →
      exitNonZero runs = false) := by
  refine ⟨rfl, rfl, rfl, rfl, ⟨by decide, by decide, by decide⟩, ?_, ?_⟩
  · intro name results total hni
    have hlen : results.no_image.length ≠ 0 := by
      simpa [List.length_eq_zero] using hni
    have hn : (results.no_image.length == 0) = false := by
      rw [beq_eq_false_iff_ne]
      exact hlen
    simp [generateValidationSummary, hn]
  · intro runs h1 h2 h3
    have hany : runs.any (fun r => !r.success) = false := by
      rw [← Bool.not_eq_true, List.any_eq_true]
      push_neg
      intro r hr
      have hs := List.all_eq_true.mp h3 r hr
      simp [hs]
    simp [exitNonZero, h1, h2, hany]

/-- C10 witness: the no_image outcome at a concrete imageless folder,
and a summary over results holding that outcome with ready_for_assembly
false. -/
theorem missing_image_shot_short_circuits_witness :
    (validateShot ⟨2⟩ false
        ⟨"02-form", false, some ⟨"p", none, none, "a.png"⟩, true⟩ []).1 =
      { status := ShotStatus.no_image, iterationRecorded := none,
        promptUsed := none, issuesRecorded := none,
        message := some "No image.png found in shot folder" } ∧
    (generateValidationSummary "demo"
        { approved := [], flagged := [], rejected := []
          no_image := [⟨"02-form",
            { status := ShotStatus.no_image, iterationRecorded := none,
              promptUsed := none, issuesRecorded := none,
              message := some "No image.png found in shot folder" }⟩]
          errors := [] } 1).ready_for_assembly = false :=
  ⟨(missing_image_shot_short_circuits ⟨2⟩ false [] "02-form"
      ⟨"p", none, none, "a.png"⟩ true).1,
   (missing_image_shot_short_circuits ⟨2⟩ false [] "02-form"
      ⟨"p", none, none, "a.png"⟩ true).2.2.2.2.2.1 "demo" _ 1 (by decide)⟩

end Phase6
